import Mathlib

/-!
Verification of the runbook dispatcher (`runbooktemplate.py`).

The development embeds the dispatcher shallowly:

* Python strings are modelled as `List Char`;
* `str.split(",")` is `pySplit`;
* `str.replace("RequestBody:", "")` is `pyReplaceRB`;
* `json.loads` is `jsonLoads`, an executable recursive-descent decoder for
  the JSON grammar (objects, arrays, strings with escapes, numbers kept as
  their lexemes, `true`/`false`/`null`), rejecting trailing garbage, with
  dictionary lookups resolving duplicate keys to the last binding;
* `automationassets.get_automation_variable` is application of an abstract
  `Store` (name to optional value), a miss modelling
  `AutomationAssetNotFound`;
* `os.environ` is an association list updated by prepending;
* the call `mmg.main(...)` is recorded as a value of `MmgCall`.

The whole script run is the pure function `run`, which returns the trace of
secret-store queries (each paired with the environment at the moment it is
issued), the final environment, the list of generator calls made, and the
error that aborted the run, if any.
-/

namespace Runbook

/-- Python strings are modelled as lists of characters. -/
abbrev Str := List Char

/-- `s.split(sep)` for a one-character separator: Python semantics, so the
result always has at least one (possibly empty) field. -/
def pySplit (sep : Char) : Str → List Str
  | [] => [[]]
  | c :: rest =>
    match pySplit sep rest with
    | [] => [[]]
    | f :: fs => if c = sep then [] :: f :: fs else (c :: f) :: fs

/-- The literal marker `"RequestBody:"` (12 characters). -/
def rbMarker : Str := ("RequestBody:").data

/-- Fuel-indexed worker for `pyReplaceRB`; each step consumes at least one
character, so `s.length` fuel always suffices. -/
def pyReplaceRBAux : Nat → Str → Str
  | 0, s => s
  | _, [] => []
  | fuel + 1, c :: rest =>
    if rbMarker.isPrefixOf (c :: rest) then pyReplaceRBAux fuel (rest.drop 11)
    else c :: pyReplaceRBAux fuel rest

/-- `s.replace("RequestBody:", "")`: removes every (leftmost, non-overlapping)
occurrence of the marker, exactly as Python `str.replace` with an empty
replacement does. -/
def pyReplaceRB (s : Str) : Str := pyReplaceRBAux s.length s

/-- Stripping a single leading occurrence of the marker and leaving the rest
of the string unchanged.  Modelled from the spec's description of the
envelope ("after stripping a literal RequestBody: prefix"), for comparison
with what the code (`pyReplaceRB`) actually does. -/
def stripLeadingRB (s : Str) : Str :=
  if rbMarker.isPrefixOf s then s.drop 12 else s

/-- JSON values as produced by `json.loads`.  Numbers are kept as their
source lexeme, which is enough for this dispatcher: it never inspects a
number, it only forwards values. -/
inductive Json where
  | null : Json
  | bool (b : Bool) : Json
  | num (lexeme : Str) : Json
  | str (s : Str) : Json
  | arr (elems : List Json) : Json
  | obj (members : List (Str × Json)) : Json

/-- JSON inter-token whitespace (space, tab, line feed, carriage return). -/
def skipWs : Str → Str
  | c :: rest =>
    if c = ' ' ∨ c = '\t' ∨ c = '\n' ∨ c = '\r' then skipWs rest else c :: rest
  | [] => []

/-- Value of a hexadecimal digit. -/
def hexVal (c : Char) : Option Nat :=
  if '0' ≤ c ∧ c ≤ '9' then some (c.toNat - 48)
  else if 'a' ≤ c ∧ c ≤ 'f' then some (c.toNat - 87)
  else if 'A' ≤ c ∧ c ≤ 'F' then some (c.toNat - 55)
  else none

/-- Body of a JSON string, the opening quote already consumed.  Handles the
escape sequences of the JSON grammar and rejects raw control characters. -/
def parseStringBody : Nat → Str → Option (Str × Str)
  | 0, _ => none
  | _, [] => none
  | fuel + 1, c :: rest =>
    if c = '"' then some ([], rest)
    else if c = '\\' then
      match rest with
      | [] => none
      | e :: rest2 =>
        let esc : Option (Char × Str) :=
          if e = '"' then some ('"', rest2)
          else if e = '\\' then some ('\\', rest2)
          else if e = '/' then some ('/', rest2)
          else if e = 'b' then some ('\x08', rest2)
          else if e = 'f' then some ('\x0c', rest2)
          else if e = 'n' then some ('\n', rest2)
          else if e = 'r' then some ('\r', rest2)
          else if e = 't' then some ('\t', rest2)
          else if e = 'u' then
            match rest2 with
            | h1 :: h2 :: h3 :: h4 :: rest3 =>
              match hexVal h1, hexVal h2, hexVal h3, hexVal h4 with
              | some a, some b, some c2, some d =>
                some (Char.ofNat (((a * 16 + b) * 16 + c2) * 16 + d), rest3)
              | _, _, _, _ => none
            | _ => none
          else none
        match esc with
        | some (ch, r) =>
          match parseStringBody fuel r with
          | some (s, r2) => some (ch :: s, r2)
          | none => none
        | none => none
    else if c.toNat < 32 then none
    else
      match parseStringBody fuel rest with
      | some (s, r2) => some (c :: s, r2)
      | none => none

/-- One or more decimal digits, returned together with the rest. -/
def takeDigits1 (s : Str) : Option (Str × Str) :=
  match s.span Char.isDigit with
  | (d, rest) => if d = [] then none else some (d, rest)

/-- Integer part of a JSON number: `0`, or a nonzero digit followed by
digits (JSON forbids leading zeros). -/
def parseIntPart : Str → Option (Str × Str)
  | [] => none
  | c :: rest =>
    if c = '0' then some (['0'], rest)
    else if c.isDigit then
      match rest.span Char.isDigit with
      | (d, r) => some (c :: d, r)
    else none

/-- Optional fractional part `.digits`. -/
def parseFracPart (s : Str) : Option (Str × Str) :=
  match s with
  | '.' :: rest =>
    match takeDigits1 rest with
    | some (d, r) => some ('.' :: d, r)
    | none => none
  | _ => some ([], s)

/-- Optional exponent part `[eE][+-]?digits`. -/
def parseExpPart (s : Str) : Option (Str × Str) :=
  match s with
  | c :: rest =>
    if c = 'e' ∨ c = 'E' then
      match rest with
      | sgn :: rest2 =>
        if sgn = '+' ∨ sgn = '-' then
          match takeDigits1 rest2 with
          | some (d, r) => some (c :: sgn :: d, r)
          | none => none
        else
          match takeDigits1 rest with
          | some (d, r) => some (c :: d, r)
          | none => none
      | [] => none
    else some ([], s)
  | [] => some ([], s)

/-- A JSON number starting at the given position; returns its lexeme. -/
def parseNumber (s : Str) : Option (Str × Str) :=
  let (sgn, s1) : Str × Str := match s with
    | '-' :: rest => (['-'], rest)
    | _ => ([], s)
  match parseIntPart s1 with
  | none => none
  | some (ip, s2) =>
    match parseFracPart s2 with
    | none => none
    | some (fp, s3) =>
      match parseExpPart s3 with
      | none => none
      | some (ep, s4) => some (sgn ++ ip ++ fp ++ ep, s4)

/-- What the recursive-descent decoder is currently parsing: a value, the
members of an object (with the pairs read so far), or the elements of an
array (with the elements read so far). -/
inductive PState where
  | value : PState
  | members (acc : List (Str × Json)) : PState
  | elems (acc : List Json) : PState

/-- The recursive-descent JSON decoder, fuel-indexed with structural
recursion on the fuel so that it evaluates definitionally.  In `value` state
it parses one JSON value (leading whitespace allowed); in `members` state it
parses the members of an object whose opening brace (and following
whitespace) is consumed; in `elems` state likewise for an array. -/
def parseCore : Nat → PState → Str → Option (Json × Str)
  | 0, _, _ => none
  | fuel + 1, .value, s =>
    match skipWs s with
    | [] => none
    | c :: rest =>
      if c = '\x7b' then
        match skipWs rest with
        | '\x7d' :: r => some (.obj [], r)
        | r => parseCore fuel (.members []) r
      else if c = '[' then
        match skipWs rest with
        | ']' :: r => some (.arr [], r)
        | r => parseCore fuel (.elems []) r
      else if c = '"' then
        match parseStringBody (fuel + 1) rest with
        | some (str, r) => some (.str str, r)
        | none => none
      else if c = 't' then
        match rest with
        | 'r' :: 'u' :: 'e' :: r => some (.bool true, r)
        | _ => none
      else if c = 'f' then
        match rest with
        | 'a' :: 'l' :: 's' :: 'e' :: r => some (.bool false, r)
        | _ => none
      else if c = 'n' then
        match rest with
        | 'u' :: 'l' :: 'l' :: r => some (.null, r)
        | _ => none
      else if c = '-' ∨ c.isDigit then
        match parseNumber (c :: rest) with
        | some (lex, r) => some (.num lex, r)
        | none => none
      else none
  | fuel + 1, .members acc, s =>
    match s with
    | '"' :: rest =>
      match parseStringBody (fuel + 1) rest with
      | some (key, r1) =>
        match skipWs r1 with
        | ':' :: r2 =>
          match parseCore fuel .value r2 with
          | some (v, r3) =>
            match skipWs r3 with
            | ',' :: r4 => parseCore fuel (.members (acc ++ [(key, v)])) (skipWs r4)
            | '\x7d' :: r4 => some (.obj (acc ++ [(key, v)]), r4)
            | _ => none
          | none => none
        | _ => none
      | none => none
    | _ => none
  | fuel + 1, .elems acc, s =>
    match parseCore fuel .value s with
    | some (v, r1) =>
      match skipWs r1 with
      | ',' :: r2 => parseCore fuel (.elems (acc ++ [v])) r2
      | ']' :: r2 => some (.arr (acc ++ [v]), r2)
      | _ => none
    | none => none

/-- `json.loads`: decode a complete document, rejecting trailing garbage. -/
def jsonLoads (s : Str) : Option Json :=
  match parseCore (2 * s.length + 8) .value s with
  | some (v, rest) => if skipWs rest = [] then some v else none
  | none => none

/-- Lookup in a decoded object with Python-dict semantics: when a key is
bound several times, the last binding wins. -/
def dictLookup (kvs : List (Str × Json)) (k : Str) : Option Json :=
  match kvs with
  | [] => none
  | (k', v) :: rest =>
    match dictLookup rest k with
    | some v' => some v'
    | none => if k = k' then some v else none

/-- The key the script reads from the decoded webhook payload. -/
def serialKey : Str := ("serial").data

/-- The secret store (`automationassets`): a partial map from variable names
to values; `none` models `AutomationAssetNotFound` being raised. -/
abbrev Store := Str → Option Str

/-- `automationassets.get_automation_variable(name)`. -/
def get_automation_variable (store : Store) (name : Str) : Option Str :=
  store name

/-- The process environment `os.environ`, as an association list; the first
binding of a name is its current value. -/
abbrev Env := List (Str × Str)

/-- `os.environ[k] = v`. -/
def setEnv (env : Env) (k v : Str) : Env := (k, v) :: env

/-- `os.environ.get(k)`. -/
def getEnv : Env → Str → Option Str
  | [], _ => none
  | (k', v) :: rest, k => if k = k' then some v else getEnv rest k

/-- The uncaught Python exceptions that can abort the script. -/
inductive RunError where
  | indexError : RunError
  | jsonDecodeError : RunError
  | typeError : RunError
  | keyError : RunError
  | assetNotFound (name : Str) : RunError

/-- Outcome of the webhook-argument block (lines 11-18 of the script):
either no argument was supplied (`webhook` stays `False`), or the argument
was parsed and a `serial` value extracted (`webhook` is `True`), or an
exception was raised while parsing. -/
inductive ParseResult where
  | fleet : ParseResult
  | single (serial : Json) : ParseResult
  | fail (e : RunError) : ParseResult

/-- The two execution modes of the dispatcher. -/
inductive ExecutionMode where
  | SINGLE_DEVICE : ExecutionMode
  | FLEET_WIDE : ExecutionMode
deriving DecidableEq

/-- The mode a parse outcome selects, if the run survives parsing. -/
def modeOf : ParseResult → Option ExecutionMode
  | .fleet => some .FLEET_WIDE
  | .single _ => some .SINGLE_DEVICE
  | .fail _ => none

/-- One record of the hard-coded group table. -/
structure Group where
  id : Str
  name : Str
  catalog : Str
  type : Str
deriving DecidableEq

/-- The hard-coded `groups` list (lines 27-40 of the script). -/
def groups : List Group :=
  [ { id := ("id_of_aad_group_1").data
      name := ("name_of_manifest_1").data
      catalog := ("catalog_name_1").data
      type := ("type_of_group_1").data },
    { id := ("id_of_aad_group_2").data
      name := ("name_of_manifest_2").data
      catalog := ("catalog_name_2").data
      type := ("type_of_group_2").data } ]

/-- A call to `mmg.main`, with the keyword arguments it was given. -/
inductive MmgCall where
  | withSerial (group_list : List Group) (serial_number : Json) : MmgCall
  | fleetWide (group_list : List Group) : MmgCall

/-- The `group_list` argument of a recorded generator call. -/
def MmgCall.groupList : MmgCall → List Group
  | .withSerial gl _ => gl
  | .fleetWide gl => gl

/-- The name `CLIENT_ID`. -/
def nClientId : Str := ("CLIENT_ID").data

/-- The name `CLIENT_SECRET`. -/
def nClientSecret : Str := ("CLIENT_SECRET").data

/-- The name `CONTAINER_NAME`. -/
def nContainerName : Str := ("CONTAINER_NAME").data

/-- The name `AZURE_STORAGE_CONNECTION_STRING`. -/
def nConnString : Str := ("AZURE_STORAGE_CONNECTION_STRING").data

/-- The name `TENANT_NAME`. -/
def nTenantName : Str := ("TENANT_NAME").data

/-- The five secret names, in the order the script queries them
(lines 21-25). -/
def secretNames : List Str :=
  [nClientId, nClientSecret, nContainerName, nConnString, nTenantName]

/-- Sequentially resolve the named secrets, publishing each value into the
environment before the next lookup, and aborting on the first miss.  The
first component records, in order, each query actually issued together with
the environment at the moment it was issued. -/
def resolveSecrets (store : Store) : List Str → Env → List (Str × Env) × Env × Option RunError
  | [], env => ([], env, none)
  | n :: ns, env =>
    match get_automation_variable store n with
    | none => ([(n, env)], env, some (.assetNotFound n))
    | some v =>
      match resolveSecrets store ns (setEnv env n v) with
      | (qs, env', e) => ((n, env) :: qs, env', e)

/-- Decoding of the payload string handed to `json.loads` and extraction of
its `serial` entry, exactly as lines 16-18 of the script: a decode failure
raises `json.JSONDecodeError`; subscripting a non-object raises `TypeError`;
a missing key raises `KeyError`. -/
def parseBody (payload : Str) : ParseResult :=
  match jsonLoads payload with
  | none => .fail .jsonDecodeError
  | some (.obj kvs) =>
    match dictLookup kvs serialKey with
    | some v => .single v
    | none => .fail .keyError
  | some _ => .fail .typeError

/-- The webhook-argument block (lines 11-18): if `len(sys.argv) > 1`, split
`sys.argv[1]` on commas, take field 1 (an `IndexError` if absent), remove
every occurrence of `RequestBody:`, decode the result and extract
`serial`. -/
def parsePhase (argv : List Str) : ParseResult :=
  match argv with
  | _ :: arg :: _ =>
    match (pySplit ',' arg)[1]? with
    | none => .fail .indexError
    | some field =>
      match jsonLoads (pyReplaceRB field) with
      | none => .fail .jsonDecodeError
      | some (.obj kvs) =>
        match dictLookup kvs serialKey with
        | some v => .single v
        | none => .fail .keyError
      | some _ => .fail .typeError
  | _ => .fleet

/-- Everything observable about one run of the script. -/
structure RunResult where
  queries : List (Str × Env)
  env : Env
  calls : List MmgCall
  err : Option RunError

/-- The script after the webhook-argument block: secret resolution
(lines 21-25), then the dispatch on `webhook` (lines 42-45). -/
def runFrom (p : ParseResult) (store : Store) (env0 : Env) : RunResult :=
  match p with
  | .fail e => ⟨[], env0, [], some e⟩
  | p =>
    match resolveSecrets store secretNames env0 with
    | (qs, env, some e) => ⟨qs, env, [], some e⟩
    | (qs, env, none) =>
      match p with
      | .single s => ⟨qs, env, [.withSerial groups s], none⟩
      | _ => ⟨qs, env, [.fleetWide groups], none⟩

/-- One complete run of the script on the given `sys.argv` (the head is the
script name), secret store and starting environment. -/
def run (argv : List Str) (store : Store) (env0 : Env) : RunResult :=
  runFrom (parsePhase argv) store env0

/-- The payload string the script hands to `json.loads` when an argument is
present: field 1 of the comma-split argument, with every occurrence of
`RequestBody:` removed. -/
def payloadOfArg (arg : Str) : Option Str :=
  ((pySplit ',' arg)[1]?).map pyReplaceRB

/-- Modelled from the spec: the payload the spec says is handed to the
decoder — field 1 of the comma-split argument with a single literal leading
`RequestBody:` marker stripped and the remainder left unchanged. -/
def specPayloadOfArg (arg : Str) : Option Str :=
  ((pySplit ',' arg)[1]?).map stripLeadingRB

/-- The first secret name the store cannot resolve, if any. -/
def firstMissing (store : Store) : List Str → Option Str
  | [] => none
  | n :: ns => match store n with
    | none => some n
    | some _ => firstMissing store ns

/-- A concrete store holding all five secrets, for evaluating the theorems
on closed inputs. -/
def demoStore : Store := fun n =>
  if n = nClientId then some (("cid-value").data)
  else if n = nClientSecret then some (("secret-value").data)
  else if n = nContainerName then some (("container-value").data)
  else if n = nConnString then some (("conn-value").data)
  else if n = nTenantName then some (("tenant-value").data)
  else none

/-- A concrete store in which the third secret, `CONTAINER_NAME`, is
missing. -/
def gappyStore : Store := fun n =>
  if n = nContainerName then none else demoStore n

/- ### Helper lemmas -/

theorem getEnv_setEnv_self (env : Env) (k v : Str) :
    getEnv (setEnv env k v) k = some v := by
  simp [getEnv, setEnv]

theorem getEnv_setEnv_ne (env : Env) (k v m : Str) (h : m ≠ k) :
    getEnv (setEnv env k v) m = getEnv env m := by
  simp [getEnv, setEnv, h]

/-- When every requested secret resolves, the secret phase reports no
error. -/
theorem resolveSecrets_ok (store : Store) :
    ∀ (names : List Str) (env : Env), (∀ n ∈ names, (store n).isSome) →
      (resolveSecrets store names env).2.2 = none := by
  intro names
  induction names with
  | nil => intro env _; rfl
  | cons n ns ih =>
    intro env h
    have hn : (store n).isSome := h n (List.mem_cons_self n ns)
    rcases hs : store n with _ | v
    · rw [hs] at hn; simp at hn
    · have htail := ih (setEnv env n v) (fun m hm => h m (List.mem_cons_of_mem _ hm))
      rcases hr : resolveSecrets store ns (setEnv env n v) with ⟨qs, env', e⟩
      rw [hr] at htail
      simp only at htail
      simp [resolveSecrets, get_automation_variable, hs, hr, htail]

/-- The secret phase aborts with the not-found error of the first name the
store cannot resolve. -/
theorem resolveSecrets_err_of_firstMissing (store : Store) :
    ∀ (names : List Str) (env : Env) (n : Str), firstMissing store names = some n →
      (resolveSecrets store names env).2.2 = some (.assetNotFound n) := by
  intro names
  induction names with
  | nil => intro env n h; simp [firstMissing] at h
  | cons m ns ih =>
    intro env n h
    rcases hs : store m with _ | v
    · rw [firstMissing, hs] at h
      cases h
      simp [resolveSecrets, get_automation_variable, hs]
    · rw [firstMissing, hs] at h
      simp only at h
      have htail := ih (setEnv env m v) n h
      rcases hr : resolveSecrets store ns (setEnv env m v) with ⟨qs, env', e⟩
      rw [hr] at htail
      simp only at htail
      simp [resolveSecrets, get_automation_variable, hs, hr, htail]

/-- The name reported by `firstMissing` is a requested name the store lacks. -/
theorem firstMissing_mem (store : Store) :
    ∀ (names : List Str) (n : Str), firstMissing store names = some n →
      n ∈ names ∧ store n = none := by
  intro names
  induction names with
  | nil => intro n h; simp [firstMissing] at h
  | cons m ns ih =>
    intro n h
    rcases hs : store m with _ | v
    · rw [firstMissing, hs] at h
      cases h
      exact ⟨List.mem_cons_self _ _, hs⟩
    · rw [firstMissing, hs] at h
      rcases ih n h with ⟨h1, h2⟩
      exact ⟨List.mem_cons_of_mem _ h1, h2⟩

/-- When the i-th requested name is the first the store lacks (all earlier
ones resolve), the secret phase reports that name's not-found error, the
earlier names carry their resolved values in the resulting environment, and
every other name is untouched. -/
theorem resolveSecrets_partial (store : Store) :
    ∀ (names : List Str) (i : Nat) (nk : Str) (env : Env),
      names[i]? = some nk → store nk = none →
      (∀ n ∈ names.take i, (store n).isSome) →
      (resolveSecrets store names env).2.2 = some (.assetNotFound nk) ∧
      (∀ n ∈ names.take i, getEnv (resolveSecrets store names env).2.1 n = store n) ∧
      (∀ m, m ∉ names.take i →
        getEnv (resolveSecrets store names env).2.1 m = getEnv env m) := by
  intro names
  induction names with
  | nil => intro i nk env hi; simp at hi
  | cons n ns ih =>
    intro i nk env hi hmiss hpre
    cases i with
    | zero =>
      simp only [List.getElem?_cons_zero, Option.some.injEq] at hi
      subst hi
      simp only [List.take_zero]
      have hstep : resolveSecrets store (n :: ns) env
          = ([(n, env)], env, some (.assetNotFound n)) := by
        simp [resolveSecrets, get_automation_variable, hmiss]
      rw [hstep]
      exact ⟨rfl, by intro x hx; simp at hx, fun m _ => rfl⟩
    | succ j =>
      simp only [List.getElem?_cons_succ] at hi
      simp only [List.take_succ_cons] at hpre ⊢
      have hsome : (store n).isSome := hpre n (List.mem_cons_self n _)
      rcases Option.isSome_iff_exists.mp hsome with ⟨v, hv⟩
      have hpre' : ∀ x ∈ ns.take j, (store x).isSome :=
        fun x hx => hpre x (List.mem_cons_of_mem _ hx)
      have IH := ih j nk (setEnv env n v) hi hmiss hpre'
      rcases hr : resolveSecrets store ns (setEnv env n v) with ⟨qs, env', e⟩
      rw [hr] at IH
      simp only at IH
      rcases IH with ⟨IH1, IH2, IH3⟩
      have hstep : resolveSecrets store (n :: ns) env = ((n, env) :: qs, env', e) := by
        simp [resolveSecrets, get_automation_variable, hv, hr]
      rw [hstep]
      refine ⟨by simpa using IH1, ?_, ?_⟩
      · intro x hx
        simp only [List.mem_cons] at hx
        rcases hx with rfl | hx
        · by_cases hmem : x ∈ ns.take j
          · exact IH2 x hmem
          · rw [IH3 x hmem, getEnv_setEnv_self, hv]
        · exact IH2 x hx
      · intro m hm
        simp only [List.mem_cons, not_or] at hm
        rw [IH3 m hm.2, getEnv_setEnv_ne _ _ _ _ hm.1]

/- ### Claims -/

/-- Claim C1, counterexample.  The argument
`ignored,RequestBody:{"serial":"ARequestBody:B"}` is a well-formed envelope
in the claim's sense: its second field, after stripping the single literal
leading `RequestBody:` marker, decodes to a JSON object whose `serial` is
`ARequestBody:B`.  Yet the run (with every secret present) calls the
generator with serial `AB`: the script removes every occurrence of the
marker, including the one inside the serial value. -/
theorem C1_counterexample :
    specPayloadOfArg (("ignored,RequestBody:\x7b\"serial\":\"ARequestBody:B\"\x7d").data)
      = some (("\x7b\"serial\":\"ARequestBody:B\"\x7d").data) ∧
    jsonLoads (("\x7b\"serial\":\"ARequestBody:B\"\x7d").data)
      = some (.obj [(("serial").data, .str (("ARequestBody:B").data))]) ∧
    (run [("p").data, ("ignored,RequestBody:\x7b\"serial\":\"ARequestBody:B\"\x7d").data]
        demoStore []).calls
      = [.withSerial groups (.str (("AB").data))] ∧
    (("AB").data : Str) ≠ ("ARequestBody:B").data :=
  ⟨rfl, rfl, rfl, by decide⟩

/-- Claim C1 as amended: for every invocation argument splittable into at
least two comma-separated fields whose second field, after removing every
occurrence of the literal `RequestBody:`, decodes to a JSON object with
field `serial = S` — and provided every secret resolves — the run selects
SINGLE_DEVICE mode and calls the generator exactly once, with
`serial_number = S` and the full group table as `group_list`. -/
theorem C1_single_device_dispatch (a0 arg : Str) (rest : List Str)
    (store : Store) (env0 : Env) (field : Str) (kvs : List (Str × Json)) (S : Json)
    (h1 : (pySplit ',' arg)[1]? = some field)
    (h2 : jsonLoads (pyReplaceRB field) = some (.obj kvs))
    (h3 : dictLookup kvs serialKey = some S)
    (h4 : ∀ n ∈ secretNames, (store n).isSome) :
    modeOf (parsePhase (a0 :: arg :: rest)) = some .SINGLE_DEVICE ∧
    (run (a0 :: arg :: rest) store env0).calls = [.withSerial groups S] ∧
    (run (a0 :: arg :: rest) store env0).err = none := by
  have hpp : parsePhase (a0 :: arg :: rest) = .single S := by
    simp [parsePhase, h1, h2, h3]
  rcases hr : resolveSecrets store secretNames env0 with ⟨qs, env, err⟩
  have herr : err = none := by
    have h := resolveSecrets_ok store secretNames env0 h4
    rw [hr] at h; exact h
  subst herr
  refine ⟨by rw [hpp]; rfl, ?_, ?_⟩
  · show (runFrom (parsePhase (a0 :: arg :: rest)) store env0).calls = _
    rw [hpp]
    simp [runFrom, hr]
  · show (runFrom (parsePhase (a0 :: arg :: rest)) store env0).err = none
    rw [hpp]
    simp [runFrom, hr]

/-- Claim C1, witness: on the documented example argument
`ignored,RequestBody:{"serial":"ABC123"}` with all secrets present, the run
is a single-device dispatch with serial `ABC123`. -/
theorem C1_witness :
    modeOf (parsePhase [("p").data, ("ignored,RequestBody:\x7b\"serial\":\"ABC123\"\x7d").data])
      = some .SINGLE_DEVICE ∧
    (run [("p").data, ("ignored,RequestBody:\x7b\"serial\":\"ABC123\"\x7d").data]
        demoStore []).calls
      = [.withSerial groups (.str (("ABC123").data))] ∧
    (run [("p").data, ("ignored,RequestBody:\x7b\"serial\":\"ABC123\"\x7d").data]
        demoStore []).err = none :=
  C1_single_device_dispatch (("p").data)
    (("ignored,RequestBody:\x7b\"serial\":\"ABC123\"\x7d").data) [] demoStore []
    (("RequestBody:\x7b\"serial\":\"ABC123\"\x7d").data)
    [(("serial").data, .str (("ABC123").data))] (.str (("ABC123").data))
    rfl rfl rfl (by decide)

/-- Claim C2: a run started with no invocation argument (a `sys.argv` of at
most the script name) selects FLEET_WIDE mode and, provided every secret
resolves, calls the generator exactly once with the full group table and no
serial number. -/
theorem C2_fleet_wide_dispatch (argv : List Str) (store : Store) (env0 : Env)
    (hlen : argv.length ≤ 1)
    (h4 : ∀ n ∈ secretNames, (store n).isSome) :
    modeOf (parsePhase argv) = some .FLEET_WIDE ∧
    (run argv store env0).calls = [.fleetWide groups] ∧
    (run argv store env0).err = none := by
  have hpp : parsePhase argv = .fleet := by
    match argv with
    | [] => rfl
    | [a] => rfl
    | a :: b :: t => simp at hlen
  rcases hr : resolveSecrets store secretNames env0 with ⟨qs, env, err⟩
  have herr : err = none := by
    have h := resolveSecrets_ok store secretNames env0 h4
    rw [hr] at h; exact h
  subst herr
  refine ⟨by rw [hpp]; rfl, ?_, ?_⟩
  · show (runFrom (parsePhase argv) store env0).calls = _
    rw [hpp]
    simp [runFrom, hr]
  · show (runFrom (parsePhase argv) store env0).err = none
    rw [hpp]
    simp [runFrom, hr]

/-- Claim C2, witness: a run with only the script name in `sys.argv` and all
secrets present is a fleet-wide dispatch. -/
theorem C2_witness :
    modeOf (parsePhase [("p").data]) = some .FLEET_WIDE ∧
    (run [("p").data] demoStore []).calls = [.fleetWide groups] ∧
    (run [("p").data] demoStore []).err = none :=
  C2_fleet_wide_dispatch [("p").data] demoStore [] (by decide) (by decide)

/-- Claim C3: when the run survives argument parsing but some secret lookup
raises a not-found error, the run terminates with the error of the first
unresolvable name and the generator is never called. -/
theorem C3_secret_failure_no_dispatch (argv : List Str) (store : Store) (env0 : Env)
    (n : Str)
    (hp : ∀ e, parsePhase argv ≠ .fail e)
    (hn : firstMissing store secretNames = some n) :
    n ∈ secretNames ∧ store n = none ∧
    (run argv store env0).calls = [] ∧
    (run argv store env0).err = some (.assetNotFound n) := by
  rcases firstMissing_mem store secretNames n hn with ⟨hmem, hnone⟩
  have herr := resolveSecrets_err_of_firstMissing store secretNames env0 n hn
  rcases hr : resolveSecrets store secretNames env0 with ⟨qs, env, err⟩
  rw [hr] at herr
  simp only at herr
  subst herr
  have hrun : run argv store env0 = ⟨qs, env, [], some (.assetNotFound n)⟩ := by
    show runFrom (parsePhase argv) store env0 = _
    cases hpp : parsePhase argv with
    | fail e => exact absurd hpp (hp e)
    | fleet => simp [runFrom, hr]
    | single s => simp [runFrom, hr]
  exact ⟨hmem, hnone, by rw [hrun], by rw [hrun]⟩

/-- Claim C3, witness: with `CONTAINER_NAME` missing from the store, a
fleet run makes no generator call and dies with its not-found error. -/
theorem C3_witness :
    nContainerName ∈ secretNames ∧
    gappyStore nContainerName = none ∧
    (run [("p").data] gappyStore []).calls = [] ∧
    (run [("p").data] gappyStore []).err = some (.assetNotFound nContainerName) :=
  C3_secret_failure_no_dispatch [("p").data] gappyStore [] nContainerName
    (by intro e; simp [parsePhase]) rfl

/-- Claim C4, counterexample.  For the argument
`a,RequestBody:{"serial":"A"}RequestBody:` the second field is not valid
JSON after stripping the single leading marker (trailing garbage remains),
so the claim demands termination before any secret lookup; but the script
removes the inner occurrence of `RequestBody:` too, decodes successfully,
performs all five lookups and calls the generator. -/
theorem C4_counterexample :
    specPayloadOfArg (("a,RequestBody:\x7b\"serial\":\"A\"\x7dRequestBody:").data)
      = some (("\x7b\"serial\":\"A\"\x7dRequestBody:").data) ∧
    jsonLoads (("\x7b\"serial\":\"A\"\x7dRequestBody:").data) = none ∧
    (run [("p").data, ("a,RequestBody:\x7b\"serial\":\"A\"\x7dRequestBody:").data]
        demoStore []).err = none ∧
    (run [("p").data, ("a,RequestBody:\x7b\"serial\":\"A\"\x7dRequestBody:").data]
        demoStore []).queries.map Prod.fst = secretNames ∧
    (run [("p").data, ("a,RequestBody:\x7b\"serial\":\"A\"\x7dRequestBody:").data]
        demoStore []).calls = [.withSerial groups (.str (("A").data))] :=
  ⟨rfl, rfl, rfl, rfl, rfl⟩

/-- Claim C4 as amended: when the invocation argument is present and
malformed — not splittable into two comma-separated fields, or its second
field not valid JSON after removing every occurrence of `RequestBody:`, or
the decoded document without a `serial` entry — the run terminates with an
uncaught parse error, with no secret-store query issued, the environment
untouched, and no generator call. -/
theorem C4_malformed_aborts (a0 arg : Str) (rest : List Str)
    (store : Store) (env0 : Env)
    (h : (pySplit ',' arg)[1]? = none ∨
         (∃ field, (pySplit ',' arg)[1]? = some field ∧
           (jsonLoads (pyReplaceRB field) = none ∨
            (∃ j, jsonLoads (pyReplaceRB field) = some j ∧
              ∀ kvs, j = Json.obj kvs → dictLookup kvs serialKey = none)))) :
    ∃ e, run (a0 :: arg :: rest) store env0 = ⟨[], env0, [], some e⟩ := by
  rcases h with h | ⟨field, hf, h2 | ⟨j, hj, hser⟩⟩
  · exact ⟨.indexError, by simp [run, parsePhase, h, runFrom]⟩
  · exact ⟨.jsonDecodeError, by simp [run, parsePhase, hf, h2, runFrom]⟩
  · cases j with
    | obj kvs =>
      exact ⟨.keyError, by simp [run, parsePhase, hf, hj, hser kvs rfl, runFrom]⟩
    | null => exact ⟨.typeError, by simp [run, parsePhase, hf, hj, runFrom]⟩
    | bool b => exact ⟨.typeError, by simp [run, parsePhase, hf, hj, runFrom]⟩
    | num l => exact ⟨.typeError, by simp [run, parsePhase, hf, hj, runFrom]⟩
    | str s => exact ⟨.typeError, by simp [run, parsePhase, hf, hj, runFrom]⟩
    | arr xs => exact ⟨.typeError, by simp [run, parsePhase, hf, hj, runFrom]⟩

/-- Claim C4, witness: the documented malformed argument
`a,RequestBody:{not valid json` aborts the run before any lookup. -/
theorem C4_witness :
    ∃ e, run [("p").data, ("a,RequestBody:\x7bnot valid json").data] demoStore []
      = ⟨[], [], [], some e⟩ :=
  C4_malformed_aborts (("p").data) (("a,RequestBody:\x7bnot valid json").data) []
    demoStore []
    (Or.inr ⟨(("RequestBody:\x7bnot valid json").data), rfl, Or.inl rfl⟩)

/-- Claim C5, counterexample.  For the argument
`a,RequestBody:{"serial":"RequestBody:ok"}` the payload handed to
`json.loads` is not the second field with a leading marker stripped and the
remainder unchanged: the occurrence inside the serial value is removed as
well, observably changing the parsed serial. -/
theorem C5_counterexample :
    payloadOfArg (("a,RequestBody:\x7b\"serial\":\"RequestBody:ok\"\x7d").data)
      = some (("\x7b\"serial\":\"ok\"\x7d").data) ∧
    specPayloadOfArg (("a,RequestBody:\x7b\"serial\":\"RequestBody:ok\"\x7d").data)
      = some (("\x7b\"serial\":\"RequestBody:ok\"\x7d").data) ∧
    (("\x7b\"serial\":\"ok\"\x7d").data : Str)
      ≠ ("\x7b\"serial\":\"RequestBody:ok\"\x7d").data ∧
    parsePhase [("p").data, ("a,RequestBody:\x7b\"serial\":\"RequestBody:ok\"\x7d").data]
      = .single (.str (("ok").data)) :=
  ⟨rfl, rfl, by decide, rfl⟩

/-- Claim C5 as amended: for every present invocation argument with a second
comma-separated field, the payload handed to the JSON decoder is that field
with every occurrence of the literal `RequestBody:` removed, and the whole
parse outcome of the run is determined by that payload. -/
theorem C5_payload_transformation (a0 arg : Str) (rest : List Str) (field : Str)
    (h : (pySplit ',' arg)[1]? = some field) :
    payloadOfArg arg = some (pyReplaceRB field) ∧
    parsePhase (a0 :: arg :: rest) = parseBody (pyReplaceRB field) := by
  constructor
  · simp [payloadOfArg, h]
  · simp [parsePhase, parseBody, h]

/-- Claim C5, witness: the payload factorisation evaluated on a concrete
argument. -/
theorem C5_witness :
    payloadOfArg (("x,RequestBody:\x7b\"serial\":\"W\"\x7d").data)
      = some (pyReplaceRB (("RequestBody:\x7b\"serial\":\"W\"\x7d").data)) ∧
    parsePhase [("py").data, ("x,RequestBody:\x7b\"serial\":\"W\"\x7d").data]
      = parseBody (pyReplaceRB (("RequestBody:\x7b\"serial\":\"W\"\x7d").data)) :=
  C5_payload_transformation (("py").data)
    (("x,RequestBody:\x7b\"serial\":\"W\"\x7d").data) []
    (("RequestBody:\x7b\"serial\":\"W\"\x7d").data) rfl

/-- Claim C6: a run that survives argument parsing and resolves all its
secrets queries exactly the five fixed names, each exactly once, in the
fixed order, and each resolved value is published into the environment
before the next lookup is issued (each recorded query sees exactly the
previously published values); the final environment carries all five. -/
theorem C6_secret_resolution_protocol (argv : List Str) (store : Store) (env0 : Env)
    (v1 v2 v3 v4 v5 : Str)
    (hp : ∀ e, parsePhase argv ≠ .fail e)
    (h1 : store nClientId = some v1)
    (h2 : store nClientSecret = some v2)
    (h3 : store nContainerName = some v3)
    (h4 : store nConnString = some v4)
    (h5 : store nTenantName = some v5) :
    secretNames.Nodup ∧
    (run argv store env0).queries =
      [ (nClientId, env0),
        (nClientSecret, setEnv env0 nClientId v1),
        (nContainerName, setEnv (setEnv env0 nClientId v1) nClientSecret v2),
        (nConnString,
          setEnv (setEnv (setEnv env0 nClientId v1) nClientSecret v2)
            nContainerName v3),
        (nTenantName,
          setEnv (setEnv (setEnv (setEnv env0 nClientId v1) nClientSecret v2)
            nContainerName v3) nConnString v4) ] ∧
    (run argv store env0).env =
      setEnv (setEnv (setEnv (setEnv (setEnv env0 nClientId v1) nClientSecret v2)
        nContainerName v3) nConnString v4) nTenantName v5 := by
  have hr : resolveSecrets store secretNames env0 =
      ( [ (nClientId, env0),
          (nClientSecret, setEnv env0 nClientId v1),
          (nContainerName, setEnv (setEnv env0 nClientId v1) nClientSecret v2),
          (nConnString,
            setEnv (setEnv (setEnv env0 nClientId v1) nClientSecret v2)
              nContainerName v3),
          (nTenantName,
            setEnv (setEnv (setEnv (setEnv env0 nClientId v1) nClientSecret v2)
              nContainerName v3) nConnString v4) ],
        setEnv (setEnv (setEnv (setEnv (setEnv env0 nClientId v1) nClientSecret v2)
          nContainerName v3) nConnString v4) nTenantName v5,
        none ) := by
    simp [resolveSecrets, secretNames, get_automation_variable, h1, h2, h3, h4, h5]
  have hrun : run argv store env0 =
      ⟨ [ (nClientId, env0),
          (nClientSecret, setEnv env0 nClientId v1),
          (nContainerName, setEnv (setEnv env0 nClientId v1) nClientSecret v2),
          (nConnString,
            setEnv (setEnv (setEnv env0 nClientId v1) nClientSecret v2)
              nContainerName v3),
          (nTenantName,
            setEnv (setEnv (setEnv (setEnv env0 nClientId v1) nClientSecret v2)
              nContainerName v3) nConnString v4) ],
        setEnv (setEnv (setEnv (setEnv (setEnv env0 nClientId v1) nClientSecret v2)
          nContainerName v3) nConnString v4) nTenantName v5,
        (run argv store env0).calls,
        none ⟩ := by
    show runFrom (parsePhase argv) store env0 = _
    cases hpp : parsePhase argv with
    | fail e => exact absurd hpp (hp e)
    | fleet => simp [run, runFrom, hr, hpp]
    | single s => simp [run, runFrom, hr, hpp]
  refine ⟨by decide, ?_, ?_⟩
  · rw [hrun]
  · rw [hrun]

/-- Claim C6, witness: the query trace of a concrete fleet run against the
fully populated store. -/
theorem C6_witness :
    secretNames.Nodup ∧
    (run [("p").data] demoStore []).queries =
      [ (nClientId, []),
        (nClientSecret, setEnv [] nClientId (("cid-value").data)),
        (nContainerName,
          setEnv (setEnv [] nClientId (("cid-value").data))
            nClientSecret (("secret-value").data)),
        (nConnString,
          setEnv (setEnv (setEnv [] nClientId (("cid-value").data))
            nClientSecret (("secret-value").data)) nContainerName
              (("container-value").data)),
        (nTenantName,
          setEnv (setEnv (setEnv (setEnv [] nClientId (("cid-value").data))
            nClientSecret (("secret-value").data)) nContainerName
              (("container-value").data)) nConnString (("conn-value").data)) ] ∧
    (run [("p").data] demoStore []).env =
      setEnv (setEnv (setEnv (setEnv (setEnv [] nClientId (("cid-value").data))
        nClientSecret (("secret-value").data)) nContainerName
          (("container-value").data)) nConnString (("conn-value").data))
        nTenantName (("tenant-value").data) :=
  C6_secret_resolution_protocol [("p").data] demoStore []
    (("cid-value").data) (("secret-value").data) (("container-value").data)
    (("conn-value").data) (("tenant-value").data)
    (by intro e; simp [parsePhase]) rfl rfl rfl rfl rfl

/-- Claim C7: when the run survives argument parsing and the secret at
position `i` (0-based) is the first the store lacks, the run dies with that
name's not-found error and no generator call; the names before position `i`
hold their resolved store values in the final environment, while every
other name — the remaining secret names included — is exactly as in the
pre-run environment. -/
theorem C7_partial_publication (argv : List Str) (store : Store) (env0 : Env)
    (i : Nat) (nk : Str)
    (hp : ∀ e, parsePhase argv ≠ .fail e)
    (hi : secretNames[i]? = some nk)
    (hmiss : store nk = none)
    (hpre : ∀ n ∈ secretNames.take i, (store n).isSome) :
    (run argv store env0).err = some (.assetNotFound nk) ∧
    (run argv store env0).calls = [] ∧
    (∀ n ∈ secretNames.take i, getEnv (run argv store env0).env n = store n) ∧
    (∀ m, m ∉ secretNames.take i →
      getEnv (run argv store env0).env m = getEnv env0 m) := by
  have H := resolveSecrets_partial store secretNames i nk env0 hi hmiss hpre
  rcases hr : resolveSecrets store secretNames env0 with ⟨qs, env, e⟩
  rw [hr] at H
  simp only at H
  rcases H with ⟨H1, H2, H3⟩
  subst H1
  have hrun : run argv store env0 = ⟨qs, env, [], some (.assetNotFound nk)⟩ := by
    show runFrom (parsePhase argv) store env0 = _
    cases hpp : parsePhase argv with
    | fail e2 => exact absurd hpp (hp e2)
    | fleet => simp [runFrom, hr]
    | single s => simp [runFrom, hr]
  rw [hrun]
  exact ⟨rfl, rfl, H2, H3⟩

/-- Claim C7, witness: with the third secret missing, the first two names
carry their store values, and all other names are untouched. -/
theorem C7_witness :
    (run [("p").data] gappyStore []).err = some (.assetNotFound nContainerName) ∧
    (run [("p").data] gappyStore []).calls = [] ∧
    (∀ n ∈ secretNames.take 2, getEnv (run [("p").data] gappyStore []).env n = gappyStore n) ∧
    (∀ m, m ∉ secretNames.take 2 →
      getEnv (run [("p").data] gappyStore []).env m = getEnv [] m) :=
  C7_partial_publication [("p").data] gappyStore [] 2 nContainerName
    (by intro e; simp [parsePhase]) rfl rfl (by decide)

/-- Claim C8: the group table handed to any generator call of any run is the
fixed constructed sequence itself, unmodified (hence identical, in identical
order, across any two runs), and its `group_id` values are pairwise
distinct. -/
theorem C8_group_table_invariants :
    (∀ (argv : List Str) (store : Store) (env0 : Env) (c : MmgCall),
      c ∈ (run argv store env0).calls → MmgCall.groupList c = groups) ∧
    (groups.map Group.id).Nodup := by
  constructor
  · intro argv store env0 c hc
    have hc' : c ∈ (runFrom (parsePhase argv) store env0).calls := hc
    clear hc
    rcases hr : resolveSecrets store secretNames env0 with ⟨qs, env, e⟩
    cases hpp : parsePhase argv with
    | fail e2 =>
      rw [hpp] at hc'
      simp [runFrom] at hc'
    | fleet =>
      rw [hpp] at hc'
      cases e with
      | none =>
        simp [runFrom, hr] at hc'
        rw [hc']; rfl
      | some err =>
        simp [runFrom, hr] at hc'
    | single s =>
      rw [hpp] at hc'
      cases e with
      | none =>
        simp [runFrom, hr] at hc'
        rw [hc']; rfl
      | some err =>
        simp [runFrom, hr] at hc'
  · decide

/-- Claim C8, witness: applied to the fleet-wide call of a concrete run. -/
theorem C8_witness : MmgCall.groupList (.fleetWide groups) = groups :=
  C8_group_table_invariants.1 [("p").data] demoStore [] (.fleetWide groups)
    (by exact List.mem_singleton.mpr rfl)

/-- Claim C9: arguments beyond `sys.argv[1]` are never read — two runs with
the same first invocation argument (or both with none) behave identically,
whatever the other argument slots hold. -/
theorem C9_only_first_argument_read :
    (∀ (a0 a0' a1 : Str) (rest rest' : List Str) (store : Store) (env0 : Env),
      run (a0 :: a1 :: rest) store env0 = run (a0' :: a1 :: rest') store env0) ∧
    (∀ (argv argv' : List Str) (store : Store) (env0 : Env),
      argv.length ≤ 1 → argv'.length ≤ 1 →
      run argv store env0 = run argv' store env0) := by
  constructor
  · intro a0 a0' a1 rest rest' store env0
    rfl
  · intro argv argv' store env0 h h'
    have hf : ∀ (l : List Str), l.length ≤ 1 → parsePhase l = .fleet := by
      intro l hl
      match l with
      | [] => rfl
      | [a] => rfl
      | a :: b :: t => simp at hl
    show runFrom (parsePhase argv) store env0 = runFrom (parsePhase argv') store env0
    rw [hf argv h, hf argv' h']

/-- Claim C9, witness: concrete runs differing only in ignored argument
slots coincide. -/
theorem C9_witness :
    run [("a").data, ("x").data, ("b").data] demoStore []
      = run [("c").data, ("x").data] demoStore [] ∧
    run [] demoStore [] = run [("p").data] demoStore [] :=
  ⟨C9_only_first_argument_read.1 (("a").data) (("c").data) (("x").data)
      [("b").data] [] demoStore [],
    C9_only_first_argument_read.2 [] [("p").data] demoStore [] (by decide) (by decide)⟩

/-- Claim C10: whatever JSON value sits under the payload's `serial` key —
string or not — is forwarded to the generator verbatim, with no type
validation. -/
theorem C10_serial_forwarded_verbatim (a0 arg : Str) (rest : List Str)
    (store : Store) (env0 : Env) (field : Str) (kvs : List (Str × Json)) (v : Json)
    (h1 : (pySplit ',' arg)[1]? = some field)
    (h2 : jsonLoads (pyReplaceRB field) = some (.obj kvs))
    (h3 : dictLookup kvs serialKey = some v)
    (h4 : ∀ n ∈ secretNames, (store n).isSome) :
    (run (a0 :: arg :: rest) store env0).calls = [.withSerial groups v] := by
  have hpp : parsePhase (a0 :: arg :: rest) = .single v := by
    simp [parsePhase, h1, h2, h3]
  rcases hr : resolveSecrets store secretNames env0 with ⟨qs, env, err⟩
  have herr : err = none := by
    have h := resolveSecrets_ok store secretNames env0 h4
    rw [hr] at h; exact h
  subst herr
  show (runFrom (parsePhase (a0 :: arg :: rest)) store env0).calls = _
  rw [hpp]
  simp [runFrom, hr]

/-- Claim C10, witness: a non-string serial (the number `42`) is forwarded
as the decoded JSON number. -/
theorem C10_witness :
    (run [("p").data, ("a,RequestBody:\x7b\"serial\":42\x7d").data] demoStore []).calls
      = [.withSerial groups (.num (("42").data))] :=
  C10_serial_forwarded_verbatim (("p").data)
    (("a,RequestBody:\x7b\"serial\":42\x7d").data) [] demoStore []
    (("RequestBody:\x7b\"serial\":42\x7d").data)
    [(serialKey, .num (("42").data))] (.num (("42").data))
    rfl rfl rfl (by decide)

end Runbook
